import Mathlib

/-!
Verification of the worklog feature of an HR application:
a response envelope (`Response`), a repository layer
(`create_worklog`, `get_worklogs_of_employee_on_date`) over an external
document store, and a service layer (`create_worklog_now`,
`check_if_employee_has_worklogs_today`).

Timestamps (`datetime`) are modelled as microseconds since an epoch
(`Nat`); dates (`datetime.date`) as day indices (`Nat`); Python
exceptions as the inductive `Exn` (str(e) is `Exn.msg`); the external
store as an explicit row list `List Doc` for queries and an explicit
save outcome `Doc → Except Exn Unit` for writes, with the store calls
performed by `create_worklog` recorded in a `StoreTrace`.
-/

namespace Messages

namespace Worklog

/-- Modelled from the spec: the constants module
`hr_time/api/shared/constants/messages.py` is not part of the provided
sources; per the spec this is the fixed "empty task description" error
message, distinct from the other two message constants. -/
def EMPTY_TASK_DESC : String := "empty task description"

/-- Modelled from the spec: the fixed "future time" error message from
the missing constants module, distinct from the other two message
constants. -/
def ERR_CREATE_WORKLOG_FUTURE_TIME : String := "future time"

/-- Modelled from the spec: the fixed confirmation message from the
missing constants module, distinct from the other two message
constants. -/
def SUCCESS_WORKLOG_CREATION : String := "worklog created"

end Worklog

end Messages

/-- Model of a Python dict used as the optional `data` payload of a
response envelope; the spec treats the payload as opaque structured
data, modelled here as string key-value pairs. -/
abbrev Dict := List (String × String)

/-- Minimal JSON value model, enough for `Response.to_json`. -/
inductive JsonValue where
  | null : JsonValue
  | str : String → JsonValue
  | obj : Dict → JsonValue
deriving DecidableEq, Repr

/-- `hr_time/api/shared/utils/response.py`: the `Response` dataclass
with fields `status`, `message`, `data` (default `None`). -/
structure Response where
  status : String
  message : String
  data : Option Dict
deriving DecidableEq, Repr

def Response.STATUS_SUCCESS : String := "success"

def Response.STATUS_ERROR : String := "error"

/-- `Response.success(message, data=None)`; the Python default
`data=None` is passed explicitly as `none` at every call site. -/
def Response.success (message : String) (data : Option Dict) : Response :=
  ⟨Response.STATUS_SUCCESS, message, data⟩

/-- `Response.error(message, data=None)`. -/
def Response.error (message : String) (data : Option Dict) : Response :=
  ⟨Response.STATUS_ERROR, message, data⟩

/-- `Response.to_json`: `json.dumps(asdict(self))`, i.e. a JSON object
with exactly the dataclass fields `status`, `message`, `data` in
declaration order. -/
def Response.to_json (r : Response) : List (String × JsonValue) :=
  [("status", JsonValue.str r.status),
   ("message", JsonValue.str r.message),
   ("data", match r.data with
            | none => JsonValue.null
            | some d => JsonValue.obj d)]

/-- Python exceptions relevant to this feature: `frappe.ValidationError`
(caught separately in the repository), `ValueError` (caught separately
in the service), and any other `Exception`. -/
inductive Exn where
  | validationError : String → Exn
  | valueError : String → Exn
  | other : String → Exn
deriving DecidableEq, Repr

/-- `str(e)`: the message text of an exception. -/
def Exn.msg : Exn → String
  | Exn.validationError m => m
  | Exn.valueError m => m
  | Exn.other m => m

/-- A row of the Worklog doctype as returned or written through the
store, restricted to the five fields `_DOC_FIELDS` of the repository:
`employee`, `log_time`, `task_desc`, `task`, `ticket_link`. -/
structure Doc where
  employee : String
  log_time : Nat
  task_desc : String
  task : Option String
  ticket_link : Option String
deriving DecidableEq, Repr

/-- The in-memory `Worklog` value object of
`hr_time/api/worklog/repository.py`. -/
structure Worklog where
  employee_id : String
  log_time : Nat
  task_desc : String
  task : Option String
  ticket_link : Option String
deriving DecidableEq, Repr

/-- Store calls performed by `create_worklog`: the docs passed to
`save()` (in order), and the number of `frappe.db.rollback()` calls. -/
structure StoreTrace where
  saves : List Doc
  rollbacks : Nat
deriving DecidableEq, Repr

/-- The filter dictionary passed by the repository to the store query:
`{"employee": employee_id, "log_time": ["between", [lo, hi]]}`. -/
structure Filters where
  employee : String
  log_time_lo : Nat
  log_time_hi : Nat
deriving DecidableEq, Repr

/-- Modelled from the spec: `frappe.get_all`, the external store's
query capability, is not part of the provided sources; per the spec it
returns the rows matching an equality filter on a named field and a
`between` filter inclusive at both bounds. -/
def frappe_get_all (db : List Doc) (filters : Filters) : List Doc :=
  db.filter (fun doc =>
    doc.employee == filters.employee
      && decide (filters.log_time_lo ≤ doc.log_time)
      && decide (doc.log_time ≤ filters.log_time_hi))

/-- Microseconds in one day. -/
def microsPerDay : Nat := 86400000000

/-- A `datetime.time` value. -/
structure TimeOfDay where
  hour : Nat
  minute : Nat
  second : Nat
  microsecond : Nat
deriving DecidableEq, Repr

def TimeOfDay.toMicros (t : TimeOfDay) : Nat :=
  ((t.hour * 60 + t.minute) * 60 + t.second) * 1000000 + t.microsecond

/-- `datetime.combine(date, time)` for a day index and a time of day. -/
def datetime_combine (d : Nat) (t : TimeOfDay) : Nat :=
  d * microsPerDay + t.toMicros

/-- `WorklogRepository.get_worklogs(filters)`: passes the filters to
`frappe.get_all` over the Worklog doctype with the five doc fields. -/
def get_worklogs (db : List Doc) (filters : Filters) : List Doc :=
  frappe_get_all db filters

/-- `WorklogRepository._build_from_doc(doc)`: maps a raw row to a
`Worklog` value, field by field. -/
def build_from_doc (doc : Doc) : Worklog :=
  ⟨doc.employee, doc.log_time, doc.task_desc, doc.task, doc.ticket_link⟩

/-- `WorklogRepository.get_worklogs_of_employee_on_date(employee_id,
date)`: builds the closed interval from `combine(date, time(0, 0, 0))`
to `combine(date, time(23, 59, 59, 999999))`, queries the store with
the employee equality filter and the `between` filter, returns `[]`
when no rows match, and otherwise maps each row through
`_build_from_doc`. -/
def get_worklogs_of_employee_on_date (db : List Doc) (employee_id : String)
    (date : Nat) : List Worklog :=
  let date_start := datetime_combine date ⟨0, 0, 0, 0⟩
  let date_end := datetime_combine date ⟨23, 59, 59, 999999⟩
  let docs := get_worklogs db ⟨employee_id, date_start, date_end⟩
  if docs.isEmpty then [] else docs.map build_from_doc

/-- `WorklogRepository.create_worklog(employee_id, log_time,
worklog_text, task, ticket_link)`, with `now` the value of
`datetime.now()` read at the comparison and `save` the outcome of
`new_doc(...).save()` on the constructed doc.

The Python body is a try block: untrimmed-empty check first, then
`raise ValidationError(... FUTURE_TIME)` when `log_time >
datetime.now()`, then build the doc (five fields) and `save()`.
`except ValidationError` returns `Response.error(str(ve))` with no
rollback — this also intercepts a `ValidationError` raised by `save()`
itself; `except Exception` calls `frappe.db.rollback()` once and
returns `Response.error(str(e))`. -/
def create_worklog (save : Doc → Except Exn Unit) (now : Nat)
    (employee_id : String) (log_time : Nat) (worklog_text : String)
    (task : Option String) (ticket_link : Option String) :
    Response × StoreTrace :=
  if worklog_text = "" then
    (Response.error Messages.Worklog.EMPTY_TASK_DESC none, ⟨[], 0⟩)
  else if log_time > now then
    (Response.error Messages.Worklog.ERR_CREATE_WORKLOG_FUTURE_TIME none, ⟨[], 0⟩)
  else
    let doc : Doc := ⟨employee_id, log_time, worklog_text, task, ticket_link⟩
    match save doc with
    | Except.ok _ =>
        (Response.success Messages.Worklog.SUCCESS_WORKLOG_CREATION none, ⟨[doc], 0⟩)
    | Except.error (Exn.validationError m) =>
        (Response.error m none, ⟨[doc], 0⟩)
    | Except.error (Exn.valueError m) =>
        (Response.error m none, ⟨[doc], 1⟩)
    | Except.error (Exn.other m) =>
        (Response.error m none, ⟨[doc], 1⟩)

/-- Python `str.strip()`: removes leading and trailing whitespace.
Written over the character list so that it evaluates by kernel
reduction. -/
def pyStrip (s : String) : String :=
  ⟨((s.data.dropWhile Char.isWhitespace).reverse.dropWhile
      Char.isWhitespace).reverse⟩

/-- Step 1 of `WorklogService.create_worklog_now`: use the given
`employee_id` when present, otherwise call `get_current_employee_id()`
(an external collaborator, whose outcome is the `resolve` argument). -/
def resolve_employee_id (employee_id : Option String)
    (resolve : Except Exn String) : Except Exn String :=
  match employee_id with
  | some e => Except.ok e
  | none => resolve

/-- The service's repository collaborator
(`self.worklog.create_worklog`), abstracted over its behaviour so that
any collaborator outcome, including a raised exception, is covered. -/
abbrev RepoCreate :=
  String → Nat → String → Option String → Option String → Except Exn Response

/-- The try-block body of `WorklogService.create_worklog_now`:
resolve the employee, raise `ValueError(EMPTY_TASK_DESC)` when the
trimmed text is empty, then call the repository with the resolved
employee and `log_time = datetime.now()` and return its result
verbatim. An `Except.error (e, called)` outcome is an exception `e`
escaping the body, with `called` recording whether the repository was
invoked before the exception. -/
def create_worklog_now_try (resolve : Except Exn String)
    (repoCreate : RepoCreate) (now : Nat) (employee_id : Option String)
    (worklog_text : String) (task : Option String)
    (ticket_link : Option String) : Except (Exn × Bool) (Response × Bool) :=
  match resolve_employee_id employee_id resolve with
  | Except.error e => Except.error (e, false)
  | Except.ok emp =>
    if pyStrip worklog_text = "" then
      Except.error (Exn.valueError Messages.Worklog.EMPTY_TASK_DESC, false)
    else
      match repoCreate emp now worklog_text task ticket_link with
      | Except.ok result => Except.ok (result, true)
      | Except.error e => Except.error (e, true)

/-- `WorklogService.create_worklog_now(employee_id=None,
worklog_text='', task=None, ticket_link=None)`: the try body followed
by its two handlers. `except ValueError as ve` logs and returns
`Response.error(str(ve))`; `except Exception as e` logs and returns
`Response.error(str(e))`. The result is `Except.ok` exactly when the
Python call returns (rather than raising); the `Bool` records whether
the repository's `create_worklog` was invoked. -/
def create_worklog_now (resolve : Except Exn String)
    (repoCreate : RepoCreate) (now : Nat) (employee_id : Option String)
    (worklog_text : String) (task : Option String)
    (ticket_link : Option String) : Except Exn (Response × Bool) :=
  match create_worklog_now_try resolve repoCreate now employee_id
      worklog_text task ticket_link with
  | Except.ok r => Except.ok r
  | Except.error (Exn.valueError m, called) =>
      Except.ok (Response.error m none, called)
  | Except.error (e, called) =>
      Except.ok (Response.error (Exn.msg e) none, called)

/-- `WorklogService.check_if_employee_has_worklogs_today(employee_id)`:
`today` is the wall-clock date (`date.today()`), passed to the
repository's date-range query; returns whether the result list has
positive length. -/
def check_if_employee_has_worklogs_today (db : List Doc) (today : Nat)
    (employee_id : String) : Bool :=
  decide ((get_worklogs_of_employee_on_date db employee_id today).length > 0)

/-- A save outcome that always succeeds, for concrete instantiations. -/
def okSave : Doc → Except Exn Unit := fun _ => Except.ok ()

/-- A repository collaborator that always returns a success envelope,
for concrete instantiations. -/
def okRepoCreate : RepoCreate :=
  fun _ _ _ _ _ =>
    Except.ok (Response.success Messages.Worklog.SUCCESS_WORKLOG_CREATION none)

/-- C1 counterexample: when `save` raises a `ValidationError`, the
`except ValidationError` handler of `create_worklog` (written for the
future-time check) intercepts it, so the error envelope carries the
exception's text but `rollback` is invoked zero times, not once. -/
theorem create_worklog_store_validation_error_no_rollback_cex :
    create_worklog (fun _ => Except.error (Exn.validationError "row validation failed"))
        100 "EMP001" 50 "Completed task A" none none
      = (Response.error "row validation failed" none,
         ⟨[⟨"EMP001", 50, "Completed task A", none, none⟩], 0⟩) := by
  decide

/-- C1 (amended): with non-empty text and a non-future log time, if
`save` raises then `create_worklog` returns an error envelope whose
message equals the exception's text, and invokes `rollback` exactly
once when the exception is not a `ValidationError` and zero times when
it is (the `ValidationError` handler returns without rollback). -/
theorem create_worklog_save_failure_envelope_and_rollback
    (now : Nat) (emp : String) (t : Nat) (s : String)
    (task link : Option String) (e : Exn)
    (hs : s ≠ "") (ht : ¬ t > now) :
    create_worklog (fun _ => Except.error e) now emp t s task link
      = (Response.error (Exn.msg e) none,
         ⟨[⟨emp, t, s, task, link⟩],
          match e with
          | Exn.validationError _ => 0
          | _ => 1⟩) := by
  cases e <;> simp [create_worklog, Exn.msg, hs, ht]

/-- C1 witness: a concrete generic store failure triggers exactly one
rollback and surfaces the exception's message. -/
theorem create_worklog_save_failure_envelope_and_rollback_witness :
    create_worklog (fun _ => Except.error (Exn.other "db down"))
        100 "EMP001" 50 "Completed task A" none none
      = (Response.error "db down" none,
         ⟨[⟨"EMP001", 50, "Completed task A", none, none⟩], 1⟩) :=
  create_worklog_save_failure_envelope_and_rollback
    100 "EMP001" 50 "Completed task A" none none (Exn.other "db down")
    (by decide) (by decide)

/-- C4 counterexample: with empty `worklog_text` and a strictly future
`log_time`, `create_worklog` returns the "empty task description"
envelope (the untrimmed-empty check runs before the future-time
check), not the "future time" envelope. -/
theorem create_worklog_future_with_empty_text_cex :
    create_worklog okSave 100 "EMP001" 101 "" none none
      = (Response.error Messages.Worklog.EMPTY_TASK_DESC none, ⟨[], 0⟩)
    ∧ Messages.Worklog.EMPTY_TASK_DESC
        ≠ Messages.Worklog.ERR_CREATE_WORKLOG_FUTURE_TIME := by
  decide

/-- C4 (amended): for non-empty `worklog_text`, a `log_time` strictly
greater than `now` yields the "future time" error envelope with no
store interaction (no save, no rollback), while a `log_time` exactly
equal to `now` is accepted and proceeds to persistence (the doc is
passed to `save`). -/
theorem create_worklog_future_time_rule (save : Doc → Except Exn Unit)
    (now : Nat) (emp : String) (t : Nat) (s : String)
    (task link : Option String) (hs : s ≠ "") :
    (t > now →
       create_worklog save now emp t s task link
         = (Response.error Messages.Worklog.ERR_CREATE_WORKLOG_FUTURE_TIME none,
            ⟨[], 0⟩))
    ∧ (t = now →
       (create_worklog save now emp t s task link).2.saves
         = [⟨emp, t, s, task, link⟩]) := by
  constructor
  · intro ht
    simp [create_worklog, hs, ht]
  · intro ht
    have ht2 : ¬ t > now := by simp [ht]
    rcases hsv : save ⟨emp, t, s, task, link⟩ with e | u
    · cases e <;> simp [create_worklog, hs, ht2, hsv]
    · simp [create_worklog, hs, ht2, hsv]

/-- C4 witness: at `now = 100`, `log_time = 101` is rejected with the
future-time envelope and no store call, while `log_time = 100` is
accepted and saved. -/
theorem create_worklog_future_time_rule_witness :
    (create_worklog okSave 100 "EMP001" 101 "Completed task A" none none
       = (Response.error Messages.Worklog.ERR_CREATE_WORKLOG_FUTURE_TIME none,
          ⟨[], 0⟩))
    ∧ ((create_worklog okSave 100 "EMP001" 100 "Completed task A" none none).2.saves
       = [⟨"EMP001", 100, "Completed task A", none, none⟩]) :=
  ⟨(create_worklog_future_time_rule okSave 100 "EMP001" 101 "Completed task A"
      none none (by decide)).1 (by decide),
   (create_worklog_future_time_rule okSave 100 "EMP001" 100 "Completed task A"
      none none (by decide)).2 rfl⟩

/-- C6: for any non-empty `worklog_text` and `log_time` not after
`now`, `create_worklog` passes to the store's create-and-save path
exactly one doc, carrying exactly the five given field values, and
when the save succeeds it returns the success envelope with the fixed
confirmation message and no rollback. -/
theorem create_worklog_valid_saves_once (save : Doc → Except Exn Unit)
    (now : Nat) (emp : String) (t : Nat) (s : String)
    (task link : Option String) (hs : s ≠ "") (ht : ¬ t > now) :
    ((create_worklog save now emp t s task link).2.saves
       = [⟨emp, t, s, task, link⟩])
    ∧ (save ⟨emp, t, s, task, link⟩ = Except.ok () →
       create_worklog save now emp t s task link
         = (Response.success Messages.Worklog.SUCCESS_WORKLOG_CREATION none,
            ⟨[⟨emp, t, s, task, link⟩], 0⟩)) := by
  constructor
  · rcases hsv : save ⟨emp, t, s, task, link⟩ with e | u
    · cases e <;> simp [create_worklog, hs, ht, hsv]
    · simp [create_worklog, hs, ht, hsv]
  · intro hsv
    simp [create_worklog, hs, ht, hsv]

/-- C6 witness: a concrete valid creation saves exactly the one doc
and returns the success envelope. -/
theorem create_worklog_valid_saves_once_witness :
    ((create_worklog okSave 100 "EMP001" 50 "Completed task A" none none).2.saves
       = [⟨"EMP001", 50, "Completed task A", none, none⟩])
    ∧ (create_worklog okSave 100 "EMP001" 50 "Completed task A" none none
       = (Response.success Messages.Worklog.SUCCESS_WORKLOG_CREATION none,
          ⟨[⟨"EMP001", 50, "Completed task A", none, none⟩], 0⟩)) :=
  ⟨(create_worklog_valid_saves_once okSave 100 "EMP001" 50 "Completed task A"
      none none (by decide) (by decide)).1,
   (create_worklog_valid_saves_once okSave 100 "EMP001" 50 "Completed task A"
      none none (by decide) (by decide)).2 rfl⟩

/-- C10: the repository's empty-description check tests only untrimmed
emptiness, so a non-empty all-whitespace `worklog_text` is not
rejected: with `log_time` not after `now` the doc — whose `task_desc`
is the whitespace-only string — is passed to the store's save path,
and when the save succeeds the result is the success envelope, not the
"empty task description" error. -/
theorem create_worklog_untrimmed_empty_check_only (save : Doc → Except Exn Unit)
    (now : Nat) (emp : String) (t : Nat) (s : String)
    (task link : Option String)
    (hne : s ≠ "") (hws : pyStrip s = "") (ht : ¬ t > now) :
    ((create_worklog save now emp t s task link).2.saves
       = [⟨emp, t, s, task, link⟩])
    ∧ (save ⟨emp, t, s, task, link⟩ = Except.ok () →
       (create_worklog save now emp t s task link).1
         = Response.success Messages.Worklog.SUCCESS_WORKLOG_CREATION none) := by
  constructor
  · rcases hsv : save ⟨emp, t, s, task, link⟩ with e | u
    · cases e <;> simp [create_worklog, hne, ht, hsv]
    · simp [create_worklog, hne, ht, hsv]
  · intro hsv
    simp [create_worklog, hne, ht, hsv]

/-- C10 witness: the single-space description " " is whitespace-only
yet accepted and persisted verbatim. -/
theorem create_worklog_untrimmed_empty_check_only_witness :
    ((create_worklog okSave 100 "EMP001" 50 " " none none).2.saves
       = [⟨"EMP001", 50, " ", none, none⟩])
    ∧ ((create_worklog okSave 100 "EMP001" 50 " " none none).1
       = Response.success Messages.Worklog.SUCCESS_WORKLOG_CREATION none) :=
  ⟨(create_worklog_untrimmed_empty_check_only okSave 100 "EMP001" 50 " "
      none none (by decide) (by decide) (by decide)).1,
   (create_worklog_untrimmed_empty_check_only okSave 100 "EMP001" 50 " "
      none none (by decide) (by decide) (by decide)).2 rfl⟩

/-- Collapsing the repository's explicit empty-result branch: the
early `return []` on no matching rows equals mapping over the empty
list. -/
theorem isEmpty_ite_map_eq (l : List Doc) :
    (if l.isEmpty then ([] : List Worklog) else l.map build_from_doc)
      = l.map build_from_doc := by
  cases l <;> simp

/-- C7: `get_worklogs_of_employee_on_date` returns exactly the stored
rows of the given employee whose `log_time` lies in the closed
interval from `date` 00:00:00.000000 to `date` 23:59:59.999999 (both
bounds inclusive), each mapped to a `Worklog` preserving the five
fields; in particular it returns `[]`, not a failure, when nothing
matches. -/
theorem get_worklogs_of_employee_on_date_filters_day (db : List Doc)
    (emp : String) (d : Nat) :
    get_worklogs_of_employee_on_date db emp d
      = (db.filter (fun doc =>
          doc.employee == emp
            && decide (d * 86400000000 ≤ doc.log_time)
            && decide (doc.log_time ≤ d * 86400000000 + 86399999999))).map
          build_from_doc := by
  have h1 : datetime_combine d ⟨0, 0, 0, 0⟩ = d * 86400000000 := by
    norm_num [datetime_combine, TimeOfDay.toMicros, microsPerDay]
  have h2 : datetime_combine d ⟨23, 59, 59, 999999⟩
      = d * 86400000000 + 86399999999 := by
    norm_num [datetime_combine, TimeOfDay.toMicros, microsPerDay]
  simp only [get_worklogs_of_employee_on_date, get_worklogs, frappe_get_all,
    h1, h2]
  exact isEmpty_ite_map_eq _

/-- C8: `check_if_employee_has_worklogs_today` delegates today's date
to the repository's date-range query and returns true exactly when
that query's result is non-empty. -/
theorem check_if_employee_has_worklogs_today_iff (db : List Doc)
    (today : Nat) (emp : String) :
    check_if_employee_has_worklogs_today db today emp = true
      ↔ get_worklogs_of_employee_on_date db emp today ≠ [] := by
  simp [check_if_employee_has_worklogs_today, List.length_pos]

/-- C9: `Response.success` and `Response.error` build envelopes with
status "success" and "error" respectively, carrying the given message
and data unchanged, and `to_json` of any envelope is a JSON object
with exactly the keys `status`, `message`, `data`. -/
theorem response_envelope_contract (message : String) (data : Option Dict) :
    (Response.success message data).status = "success"
    ∧ (Response.success message data).message = message
    ∧ (Response.success message data).data = data
    ∧ (Response.error message data).status = "error"
    ∧ (Response.error message data).message = message
    ∧ (Response.error message data).data = data
    ∧ ∀ r : Response, (Response.to_json r).map Prod.fst
        = ["status", "message", "data"] := by
  exact ⟨rfl, rfl, rfl, rfl, rfl, rfl, fun r => rfl⟩

/-- C2 counterexample: with `employee_id` absent and the session
employee resolution failing, `create_worklog_now` returns (rather
than raises): the failure is caught and converted to an error
envelope with the failure's message, the repository never called. -/
theorem create_worklog_now_resolution_failure_cex :
    create_worklog_now (Except.error (Exn.other "No employee found for current user"))
        okRepoCreate 100 none "Completed task A" none none
      = Except.ok (Response.error "No employee found for current user" none,
                   false) := by
  rfl

/-- C2 (amended): when `employee_id` is absent and the resolution
collaborator fails with any exception, `create_worklog_now` does not
propagate it: the exception is caught by the service's own handlers
and the call returns an error envelope carrying the exception's
message text, without invoking the repository. -/
theorem create_worklog_now_resolution_failure_enveloped
    (repoCreate : RepoCreate) (now : Nat) (s : String)
    (task link : Option String) (e : Exn) :
    create_worklog_now (Except.error e) repoCreate now none s task link
      = Except.ok (Response.error (Exn.msg e) none, false) := by
  cases e <;> rfl

/-- C3: `create_worklog_now` never raises: for every input and every
behaviour of the resolution and repository collaborators the call
returns (`Except.ok`), and whenever an exception escapes the try body
the returned value is an error envelope whose message equals the
exception's message text. -/
theorem create_worklog_now_never_raises (resolve : Except Exn String)
    (repoCreate : RepoCreate) (now : Nat) (eid : Option String)
    (s : String) (task link : Option String) :
    (create_worklog_now resolve repoCreate now eid s task link).isOk = true
    ∧ ∀ e called,
        create_worklog_now_try resolve repoCreate now eid s task link
          = Except.error (e, called) →
        create_worklog_now resolve repoCreate now eid s task link
          = Except.ok (Response.error (Exn.msg e) none, called) := by
  constructor
  · rcases h : create_worklog_now_try resolve repoCreate now eid s task link
      with ⟨e, c⟩ | r
    · cases e <;> simp [create_worklog_now, h, Except.isOk, Except.toBool]
    · simp [create_worklog_now, h, Except.isOk, Except.toBool]
  · intro e called h
    cases e <;> simp [create_worklog_now, h, Exn.msg]

/-- C3 witness: a concrete collaborator failure is returned as an
error envelope, not raised. -/
theorem create_worklog_now_never_raises_witness :
    (create_worklog_now (Except.error (Exn.other "db down")) okRepoCreate
        100 none "Completed task A" none none).isOk = true
    ∧ create_worklog_now (Except.error (Exn.other "db down")) okRepoCreate
        100 none "Completed task A" none none
      = Except.ok (Response.error (Exn.msg (Exn.other "db down")) none,
                   false) :=
  ⟨(create_worklog_now_never_raises (Except.error (Exn.other "db down"))
      okRepoCreate 100 none "Completed task A" none none).1,
   (create_worklog_now_never_raises (Except.error (Exn.other "db down"))
      okRepoCreate 100 none "Completed task A" none none).2
     (Exn.other "db down") false rfl⟩

/-- C5: whenever the employee-resolution step succeeds (an
`employee_id` is supplied, or the session lookup returns one) and the
trimmed `worklog_text` is empty, `create_worklog_now` returns the
"empty task description" error envelope without calling the
repository's `create_worklog` — hence without any store interaction. -/
theorem create_worklog_now_blank_text_envelope (resolve : Except Exn String)
    (repoCreate : RepoCreate) (now : Nat) (eid : Option String)
    (s : String) (task link : Option String)
    (hres : (resolve_employee_id eid resolve).isOk = true)
    (hs : pyStrip s = "") :
    create_worklog_now resolve repoCreate now eid s task link
      = Except.ok (Response.error Messages.Worklog.EMPTY_TASK_DESC none,
                   false) := by
  rcases h : resolve_employee_id eid resolve with e | emp
  · rw [h] at hres
    simp [Except.isOk, Except.toBool] at hres
  · simp [create_worklog_now, create_worklog_now_try, h, hs]

/-- C5 witness: the all-whitespace description " " is rejected with
the empty-description envelope and the repository is not called. -/
theorem create_worklog_now_blank_text_envelope_witness :
    create_worklog_now (Except.ok "EMP001") okRepoCreate 100
        (some "EMP001") " " none none
      = Except.ok (Response.error Messages.Worklog.EMPTY_TASK_DESC none,
                   false) :=
  create_worklog_now_blank_text_envelope (Except.ok "EMP001") okRepoCreate
    100 (some "EMP001") " " none none (by decide) (by decide)
